import Mathlib

/-!
Verification of the youtube-content-analyzer repository against its
natural-language specification.

The repository ships a React frontend (`frontend/src/...`) together with a
content scoring and pattern-analysis engine served by a FastAPI backend.
The frontend formatting helpers (`formatNumber`, `formatDuration`) and the
rendering branches are embedded here directly from the TypeScript source.
The backend engine itself (Title Pattern Detector, Title Effectiveness
Scorer, Hook Analyzer, SEO Analyzer, Engagement Predictor, Pattern
Aggregator) is not present in the source tree; its definitions below are
modelled from the specification, which fixes a self-consistent scheme of
weights and catalogs reproducing the observable contracts.
-/

/-! ## Frontend formatting helpers (from `ChannelDashboard`/`VideoCard`) -/

/-- One-decimal rendering of `n / d` (with `0 < d`, `0 ≤ n` at call sites),
mirroring the JavaScript `(n / d).toFixed(1)` used by `formatNumber`,
idealized over exact rationals with round-half-up. -/
def jsToFixed1 (n d : ℤ) : String :=
  let scaled : ℤ := round ((10 * n : ℚ) / (d : ℚ))
  toString (scaled / 10) ++ "." ++ toString (scaled % 10)

/-- Embedding of `formatNumber` from `ChannelDashboard.tsx` / `VideoCard.tsx`:
`!num` (undefined or 0) yields "0"; `num >= 1000000` yields millions with one
decimal and suffix "M"; `num >= 1000` yields thousands with suffix "K";
otherwise the decimal string of `num`. -/
def formatNumber (num : Option ℤ) : String :=
  match num with
  | none => "0"
  | some n =>
    if n = 0 then "0"
    else if 1000000 ≤ n then jsToFixed1 n 1000000 ++ "M"
    else if 1000 ≤ n then jsToFixed1 n 1000 ++ "K"
    else toString n

/-- Two-digit zero padding, mirroring the padStart call of
`formatDuration` on its natural number inputs. -/
def pad2 (n : ℕ) : String :=
  if n < 10 then "0" ++ toString n else toString n

/-- Embedding of `formatDuration` from `VideoCard.tsx`: `!seconds` yields
"N/A"; otherwise hours, minutes and seconds are split out and rendered as
`h:mm:ss` when at least one hour, else `m:ss`. -/
def formatDuration (seconds : Option ℕ) : String :=
  match seconds with
  | none => "N/A"
  | some s =>
    if s = 0 then "N/A"
    else
      let hours := s / 3600
      let minutes := (s % 3600) / 60
      let secs := s % 60
      if hours > 0 then
        toString hours ++ ":" ++ pad2 minutes ++ ":" ++ pad2 secs
      else
        toString minutes ++ ":" ++ pad2 secs

/-! ## Text normalization

Modelled from the spec: the engine normalizes title and description text by
trimming, case-folding and splitting into words before any rule evaluates. -/

/-- Whitespace recognizer used by the word splitter. -/
def isSpaceChar (c : Char) : Bool := c == ' ' || c == '\t' || c == '\n'

/-- Splits a character stream into maximal whitespace-free words.
The second argument accumulates the current word in reverse. -/
def splitWordsAux : List Char → List Char → List (List Char)
  | [], cur => if cur.isEmpty then [] else [cur.reverse]
  | c :: rest, cur =>
    if isSpaceChar c then
      if cur.isEmpty then splitWordsAux rest [] else cur.reverse :: splitWordsAux rest []
    else splitWordsAux rest (c :: cur)

/-- Modelled from the spec: normalization of a title or description (trim,
case-fold, split into words); empty and whitespace-only text normalizes
to the empty word list. -/
def normWords (s : String) : List String :=
  (splitWordsAux s.data []).map (fun cs => String.mk (cs.map Char.toLower))

/-! ## Pattern Taxonomy (static data)

Modelled from the spec: the backend catalog of title-pattern rules,
power-word and emotion lexicons is absent from the source tree; the tables
below fix a self-consistent catalog reproducing the documented shapes. -/

/-- The fixed pattern tags of the taxonomy. -/
inductive PatternTag where
  | question
  | numberList
  | tutorial
  | emotional
  | transformation
  deriving DecidableEq

/-- The emotion categories of the emotion lexicon. -/
inductive EmotionCategory where
  | curiosity
  | fear
  | joy
  | surprise
  | anger
  deriving DecidableEq

/-- Modelled from the spec: the emotion lexicon, mapping each trigger word
to exactly one emotion category. -/
def emotionLexicon : List (String × EmotionCategory) :=
  [("secret", EmotionCategory.curiosity), ("hidden", EmotionCategory.curiosity),
   ("revealed", EmotionCategory.curiosity), ("shocking", EmotionCategory.surprise),
   ("unbelievable", EmotionCategory.surprise), ("insane", EmotionCategory.surprise),
   ("scary", EmotionCategory.fear), ("dangerous", EmotionCategory.fear),
   ("warning", EmotionCategory.fear), ("amazing", EmotionCategory.joy),
   ("awesome", EmotionCategory.joy), ("best", EmotionCategory.joy),
   ("worst", EmotionCategory.anger), ("terrible", EmotionCategory.anger)]

/-- Modelled from the spec: the power-word lexicon (membership is what the
Scorer consumes). -/
def powerWords : List String :=
  ["secret", "proven", "ultimate", "best", "free", "easy", "amazing",
   "shocking", "simple", "powerful"]

/-- Modelled from the spec: the fixed stop-word table used for topic
extraction. -/
def stopWords : List String :=
  ["the", "a", "an", "and", "or", "of", "to", "in", "on", "for", "is",
   "are", "with", "that", "this", "my", "your", "i", "you", "it", "at",
   "do", "we", "how", "what", "why"]

/-! ## Title Pattern Detector -/

/-- Words that open a Question-pattern title. -/
def questionStarters : List String := ["how", "what", "why"]

/-- A word made of digits only. -/
def isNumericWord (w : String) : Bool := !w.data.isEmpty && w.data.all Char.isDigit

/-- Keywords of the Tutorial pattern. -/
def tutorialWords : List String := ["tutorial", "guide"]

/-- Keywords of the Transformation pattern. -/
def transformationWords : List String := ["changed", "happened", "transformed", "tried"]

/-- Whether two given words occur adjacently, in order, in a word list. -/
def hasAdjacentPair (a b : String) : List String → Bool
  | [] => false
  | [_] => false
  | x :: y :: rest => (x == a && y == b) || hasAdjacentPair a b (y :: rest)

/-- Question predicate: first word is an interrogative or the title carries
a question mark. -/
def matchesQuestion (title : String) : Bool :=
  (match normWords title with
   | [] => false
   | w :: _ => questionStarters.contains w) ||
  title.data.any (fun c => c == '?')

/-- NumberList predicate: some word is purely numeric. -/
def matchesNumberList (title : String) : Bool := (normWords title).any isNumericWord

/-- Tutorial predicate: a how-to bigram or a tutorial keyword. -/
def matchesTutorial (title : String) : Bool :=
  hasAdjacentPair "how" "to" (normWords title) ||
  (normWords title).any (fun w => tutorialWords.contains w)

/-- Emotional predicate: some word is an emotion-lexicon trigger. -/
def matchesEmotional (title : String) : Bool :=
  (normWords title).any (fun w => (emotionLexicon.map Prod.fst).contains w)

/-- Transformation predicate: some word is a transformation keyword. -/
def matchesTransformation (title : String) : Bool :=
  (normWords title).any (fun w => transformationWords.contains w)

/-- Modelled from the spec: the Title Pattern Detector evaluates every
taxonomy predicate in priority order over the normalized title and returns
the ordered set of matched tags (each tag has exactly one predicate, so
duplicates are impossible by construction). -/
def patternDetector (title : String) : List PatternTag :=
  (if matchesQuestion title then [PatternTag.question] else []) ++
  (if matchesNumberList title then [PatternTag.numberList] else []) ++
  (if matchesTutorial title then [PatternTag.tutorial] else []) ++
  (if matchesEmotional title then [PatternTag.emotional] else []) ++
  (if matchesTransformation title then [PatternTag.transformation] else [])

/-! ## Title Effectiveness Scorer -/

/-- Clamp a raw score into the documented closed range [0, 100]. -/
def clampScore (q : ℚ) : ℚ := max 0 (min 100 q)

/-- Modelled from the spec: pattern subscore, count of distinct matched tags
times a fixed per-tag weight, capped at 100. -/
def patternScore (tags : List PatternTag) : ℚ := min 100 (25 * (tags.length : ℚ))

/-- Modelled from the spec: length subscore, peaked over the optimal 6-12
word window and decaying outside it. -/
def lengthScore (wc : ℕ) : ℚ :=
  if 6 ≤ wc ∧ wc ≤ 12 then 100
  else if wc < 6 then max 0 (100 - 15 * (6 - (wc : ℚ)))
  else max 0 (100 - 15 * ((wc : ℚ) - 12))

/-- Modelled from the spec: power-word subscore, fraction of words present
in the power-word lexicon, scaled and capped at 100. -/
def powerWordScore (ws : List String) : ℚ :=
  if ws.isEmpty then 0
  else min 100 (400 * ((ws.filter (fun w => powerWords.contains w)).length : ℚ) / (ws.length : ℚ))

/-- Modelled from the spec: structure subscore, fixed bonuses for a numeral,
a question mark, or a bracketed qualifier, capped at 100. -/
def structureScore (title : String) : ℚ :=
  min 100
    ((if (normWords title).any (fun w => w.data.any Char.isDigit) then (40 : ℚ) else 0) +
     (if title.data.any (fun c => c == '?') then (30 : ℚ) else 0) +
     (if title.data.any (fun c => c == '[' || c == '(') then (30 : ℚ) else 0))

/-- Modelled from the spec: the documented fixed weighted sum of the four
subscores. -/
def effectivenessRaw (title : String) : ℚ :=
  (35 / 100) * patternScore (patternDetector title) +
  (25 / 100) * lengthScore (normWords title).length +
  (20 / 100) * powerWordScore (normWords title) +
  (20 / 100) * structureScore title

/-- Modelled from the spec: final effectiveness score, the weighted sum
clamped to [0, 100] and rounded to an integer. -/
def effectivenessScore (title : String) : ℚ :=
  ((round (clampScore (effectivenessRaw title)) : ℤ) : ℚ)

/-- Catalog of improvement suggestions, one per subscore, paired with the
subscore value that triggers it. -/
def suggestionEntries (title : String) : List (ℚ × String) :=
  [(patternScore (patternDetector title), "Use a proven title pattern"),
   (lengthScore (normWords title).length, "Aim for 6 to 12 words"),
   (powerWordScore (normWords title), "Add a power word"),
   (structureScore title, "Add a number or a question mark")]

/-- Insertion step for sorting suggestion entries by subscore ascending,
which is by gap below the threshold descending. -/
def insertAscBy : (ℚ × String) → List (ℚ × String) → List (ℚ × String)
  | x, [] => [x]
  | x, y :: ys => if x.1 < y.1 then x :: y :: ys else y :: insertAscBy x ys

/-- Modelled from the spec: for each subscore below the fixed threshold 50,
emit its catalog message, at most 3, largest gap first. -/
def suggestions (title : String) : List String :=
  (((((suggestionEntries title).filter (fun e => e.1 < 50)).foldr insertAscBy []).take 3).map
    Prod.snd)

/-- Errors surfaced by the engine. -/
inductive AnalysisError where
  | emptyTitle
  | insufficientData
  deriving DecidableEq

/-- Per-title analysis produced by the Scorer. -/
structure TitleAnalysis where
  effectiveness_score : ℚ
  patterns : List PatternTag
  suggestions : List String
  deriving DecidableEq

/-- Modelled from the spec: the Title Effectiveness Scorer fails with
EmptyTitleError on a title that is empty or whitespace-only after
normalization, and otherwise returns the TitleAnalysis. -/
def titleScorer (title : String) : Except AnalysisError TitleAnalysis :=
  if (normWords title).isEmpty then Except.error AnalysisError.emptyTitle
  else
    Except.ok
      { effectiveness_score := effectivenessScore title,
        patterns := patternDetector title,
        suggestions := suggestions title }

/-! ## Hook Analyzer -/

/-- A word that closes a sentence (carries terminal punctuation). -/
def sentenceBoundary (w : String) : Bool :=
  w.data.any (fun c => c == '.' || c == '!' || c == '?')

/-- Keep words up to and including the first sentence boundary. -/
def upToBoundary : List String → List String
  | [] => []
  | w :: ws => if sentenceBoundary w then [w] else w :: upToBoundary ws

/-- Modelled from the spec: the hook is the leading window of the title,
the first 8 words or up to the first sentence boundary, whichever is
shorter. -/
def hookWords (title : String) : List String := (upToBoundary (normWords title)).take 8

/-- All emotion-lexicon hits in the hook, in hook order, each paired with
its category. -/
def emotionHits (title : String) : List (EmotionCategory × String) :=
  (hookWords title).filterMap (fun w =>
    match emotionLexicon.find? (fun p => p.1 == w) with
    | some p => some (p.2, w)
    | none => none)

/-- Keep only the first element for each key, preserving order of first
occurrence. -/
def dedupByKey {α κ : Type} [DecidableEq κ] (key : α → κ) : List α → List α
  | [] => []
  | a :: l => a :: dedupByKey key (l.filter (fun b => decide (key b ≠ key a)))
termination_by l => l.length
decreasing_by
  simp only [List.length_cons]
  exact Nat.lt_succ_of_le (List.length_filter_le _ _)

/-- Whether the hook contains a numeral. -/
def hookHasNumber (title : String) : Bool :=
  (hookWords title).any (fun w => w.data.any Char.isDigit)

/-- Whether the hook contains a question mark. -/
def hookHasQuestion (title : String) : Bool :=
  (hookWords title).any (fun w => w.data.any (fun c => c == '?'))

/-- Modelled from the spec: one entry per distinct emotion category with a
hit in the hook, first trigger word wins, ordered by first occurrence. -/
def emotionsTriggered (title : String) : List (EmotionCategory × String) :=
  dedupByKey Prod.fst (emotionHits title)

/-- Modelled from the spec: weighted sum over the hook signal indicators;
emotion hits contribute proportionally to distinct categories matched,
capped. The sum lies in [0, 100] by construction of the weights. -/
def hookRaw (title : String) : ℚ :=
  (if hookHasNumber title then (30 : ℚ) else 0) +
  (if hookHasQuestion title then (30 : ℚ) else 0) +
  min 40 (40 * ((emotionsTriggered title).length : ℚ) / 3)

/-- Modelled from the spec: the hook effectiveness score, rounded to
exactly 2 decimal places. -/
def hookScore (title : String) : ℚ := ((round (100 * hookRaw title) : ℤ) : ℚ) / 100

/-- Modelled from the spec: true iff at least one hook signal fired. -/
def hasPowerHook (title : String) : Bool :=
  hookHasNumber title || hookHasQuestion title || !(emotionHits title).isEmpty

/-- Modelled from the spec: static takeaway strings mapped from the fired
signals, in fixed priority order, capped at 3. -/
def hookTakeaways (title : String) : List String :=
  ((if !(emotionHits title).isEmpty then ["The hook triggers an emotional response"] else []) ++
   (if hookHasNumber title then ["The hook opens with a concrete number"] else []) ++
   (if hookHasQuestion title then ["The hook poses a direct question"] else [])).take 3

/-- Per-title hook analysis. -/
structure HookAnalysis where
  hook_text : List String
  hook_effectiveness_score : ℚ
  has_power_hook : Bool
  emotions_triggered : List (EmotionCategory × String)
  takeaways : List String
  deriving DecidableEq

/-- Modelled from the spec: the Hook Analyzer, a pure function of the
title. -/
def hookAnalyzer (title : String) : HookAnalysis :=
  { hook_text := hookWords title,
    hook_effectiveness_score := hookScore title,
    has_power_hook := hasPowerHook title,
    emotions_triggered := emotionsTriggered title,
    takeaways := hookTakeaways title }

/-! ## SEO/Description Analyzer -/

/-- Significant words of a title: normalized words with stop words
removed. -/
def significantWords (title : String) : List String :=
  (normWords title).filter (fun w => !stopWords.contains w)

/-- Modelled from the spec: the call-to-action phrase lexicon. -/
def ctaWords : List String := ["subscribe", "like", "comment", "share", "follow"]

/-- Timestamp marker recognizer for mm:ss-like tokens: digits, a colon,
digits. -/
def isTimestamp (w : String) : Bool :=
  let pre := w.data.takeWhile Char.isDigit
  let rest := w.data.dropWhile Char.isDigit
  !pre.isEmpty &&
    (match rest with
     | ':' :: suf => !suf.isEmpty && suf.all Char.isDigit
     | _ => false)

/-- Modelled from the spec: the SEO/Description Analyzer. An absent
description scores 0; otherwise a weighted sum of keyword coverage,
call-to-action presence, timestamp markers and length adequacy, in
[0, 100]. -/
def seoScore (description : Option String) (title : String) : ℚ :=
  match description with
  | none => 0
  | some d =>
    let dw := normWords d
    let sig := significantWords title
    let overlap := (sig.filter (fun w => dw.contains w)).length
    let kw : ℚ := if sig.isEmpty then 0 else 100 * (overlap : ℚ) / (sig.length : ℚ)
    let cta : ℚ := if dw.any (fun w => ctaWords.contains w) then 100 else 0
    let ts : ℚ := if dw.any isTimestamp then 100 else 0
    let lenAdequacy : ℚ := min 100 (5 * (dw.length : ℚ))
    clampScore ((40 / 100) * kw + (20 / 100) * cta + (20 / 100) * ts + (20 / 100) * lenAdequacy)

/-! ## Engagement Predictor -/

/-- The fixed ordered enumeration of performance tiers. -/
inductive PerformanceTier where
  | viralPotential
  | highPerformer
  | average
  | underperforming
  deriving DecidableEq

/-- Modelled from the spec: the fixed threshold ladder, inclusive on the
lower bound. -/
def performanceTier (score : ℚ) : PerformanceTier :=
  if 80 ≤ score then PerformanceTier.viralPotential
  else if 60 ≤ score then PerformanceTier.highPerformer
  else if 40 ≤ score then PerformanceTier.average
  else PerformanceTier.underperforming

/-- Modelled from the spec: the Engagement Predictor fuses title
effectiveness, SEO score, caller-supplied sentiment (absent is treated
as the neutral midpoint 50) and an optional historical-normalization term.
With batch context the documented fixed weights 0.4/0.2/0.2/0.2 apply;
with no batch context the historical term is omitted and its weight is
redistributed proportionally by renormalizing over the remaining
weights. -/
def engagementScore (titleEff seo : ℚ) (sentiment hist : Option ℚ) : ℚ :=
  let sent := sentiment.getD 50
  match hist with
  | some h =>
    clampScore ((40 / 100) * titleEff + (20 / 100) * seo + (20 / 100) * sent + (20 / 100) * h)
  | none =>
    clampScore
      (((40 / 100) * titleEff + (20 / 100) * seo + (20 / 100) * sent) /
        (40 / 100 + 20 / 100 + 20 / 100))

/-- Modelled from the spec: catalog strings appended when a weighted term
exceeds its per-term threshold, ordered by term weight descending. -/
def positiveFactors (titleEff seo sent : ℚ) : List String :=
  (if 70 ≤ titleEff then ["Strong title structure"] else []) ++
  (if 70 ≤ seo then ["Well optimized description"] else []) ++
  (if 70 ≤ sent then ["Positive audience sentiment"] else [])

/-- Modelled from the spec: catalog strings appended when a weighted term
falls below its per-term threshold, ordered by term weight descending. -/
def negativeFactors (titleEff seo sent : ℚ) : List String :=
  (if titleEff < 40 then ["Weak title structure"] else []) ++
  (if seo < 40 then ["Description needs optimization"] else []) ++
  (if sent < 40 then ["Negative audience sentiment"] else [])

/-! ## Data model and per-video pipeline -/

/-- Raw metadata for one video, owned by the caller and read-only to the
engine. Sentiment arrives precomputed from the sentiment collaborator. -/
structure VideoRecord where
  video_id : String
  title : String
  description : Option String
  view_count : ℕ
  like_count : Option ℕ
  comment_count : Option ℕ
  duration : Option ℕ
  channel : String
  published : Option String
  sentiment : Option ℚ
  deriving DecidableEq

/-- Engagement prediction for one video. -/
structure EngagementPrediction where
  engagement_score : ℚ
  performance_tier : PerformanceTier
  positive_factors : List String
  negative_factors : List String
  deriving DecidableEq

/-- Full per-video analysis bundle. -/
structure VideoAnalysis where
  title_analysis : TitleAnalysis
  hook : HookAnalysis
  seo_score : ℚ
  engagement : EngagementPrediction
  deriving DecidableEq

/-- The per-video pipeline on a non-empty title: Detector, Scorer, Hook
Analyzer, SEO Analyzer and Predictor, a pure function of the record and
the optional batch-context term. -/
def analyzeVideoTotal (hist : Option ℚ) (v : VideoRecord) : VideoAnalysis :=
  let eff := effectivenessScore v.title
  let seo := seoScore v.description v.title
  let sent := v.sentiment.getD 50
  let es := engagementScore eff seo v.sentiment hist
  { title_analysis :=
      { effectiveness_score := eff,
        patterns := patternDetector v.title,
        suggestions := suggestions v.title },
    hook := hookAnalyzer v.title,
    seo_score := seo,
    engagement :=
      { engagement_score := es,
        performance_tier := performanceTier es,
        positive_factors := positiveFactors eff seo sent,
        negative_factors := negativeFactors eff seo sent } }

/-- Modelled from the spec: per-video analysis fails fast with
EmptyTitleError exactly when the Scorer does. -/
def analyzeVideo (hist : Option ℚ) (v : VideoRecord) : Except AnalysisError VideoAnalysis :=
  if (normWords v.title).isEmpty then Except.error AnalysisError.emptyTitle
  else Except.ok (analyzeVideoTotal hist v)

/-! ## Pattern Aggregator -/

/-- Mean view count of a batch, the reference for the
historical-normalization term. -/
def batchAvgViews (batch : List VideoRecord) : ℚ :=
  if batch.isEmpty then 0
  else ((batch.map (fun v => (v.view_count : ℚ))).sum) / (batch.length : ℚ)

/-- Modelled from the spec: normalized historical metric of a video
relative to the batch average. -/
def histTerm (v : VideoRecord) (avg : ℚ) : ℚ :=
  if avg ≤ 0 then 50 else min 100 (50 * (v.view_count : ℚ) / avg)

/-- One video analyzed inside a batch: its analysis, or nothing when the
video failed analysis. -/
def analyzeInBatch (avg : ℚ) (v : VideoRecord) : Option (VideoRecord × VideoAnalysis) :=
  match analyzeVideo (some (histTerm v avg)) v with
  | Except.ok a => some (v, a)
  | Except.error _ => none

/-- The successfully analyzed subset of a batch, in input order. -/
def successes (batch : List VideoRecord) : List (VideoRecord × VideoAnalysis) :=
  batch.filterMap (analyzeInBatch (batchAvgViews batch))

/-- All matched tags across the analyzed batch, with multiplicity. -/
def allTags (succ : List (VideoRecord × VideoAnalysis)) : List PatternTag :=
  succ.flatMap (fun p => p.2.title_analysis.patterns)

/-- The distinct matched tags in first-seen order. -/
def distinctTags (succ : List (VideoRecord × VideoAnalysis)) : List PatternTag :=
  dedupByKey id (allTags succ)

/-- Modelled from the spec: tally of every matched tag across the batch. -/
def commonPatterns (succ : List (VideoRecord × VideoAnalysis)) : List (PatternTag × ℕ) :=
  (distinctTags succ).map (fun t => (t, (allTags succ).count t))

/-- Topic tokens of one record: normalized title and description words
minus stop words. -/
def tokensOf (v : VideoRecord) : List String :=
  (normWords v.title ++ normWords (v.description.getD "")).filter
    (fun w => !stopWords.contains w)

/-- All topic tokens across the analyzed batch, with multiplicity. -/
def allTokens (succ : List (VideoRecord × VideoAnalysis)) : List String :=
  succ.flatMap (fun p => tokensOf p.1)

/-- Token frequency table in first-seen order. -/
def topicCounts (succ : List (VideoRecord × VideoAnalysis)) : List (String × ℕ) :=
  (dedupByKey id (allTokens succ)).map (fun w => (w, (allTokens succ).count w))

/-- Stable insertion by count descending: an element goes in front of the
first entry with a count not above its own, so earlier entries win ties. -/
def insertByCountDesc : (String × ℕ) → List (String × ℕ) → List (String × ℕ)
  | x, [] => [x]
  | x, y :: ys => if y.2 ≤ x.2 then x :: y :: ys else y :: insertByCountDesc x ys

/-- Modelled from the spec: top 10 topics by count, ties broken by
first-seen order. -/
def mainTopics (succ : List (VideoRecord × VideoAnalysis)) : List (String × ℕ) :=
  ((topicCounts succ).foldr insertByCountDesc []).take 10

/-- The top-3 topic words. -/
def topTopics (succ : List (VideoRecord × VideoAnalysis)) : List String :=
  ((mainTopics succ).take 3).map Prod.fst

/-- Modelled from the spec: percentage of videos whose title or description
contains at least one of the top-3 topics. -/
def contentConsistency (succ : List (VideoRecord × VideoAnalysis)) : ℚ :=
  if succ.isEmpty then 0
  else
    100 *
        ((succ.filter (fun p => (tokensOf p.1).any (fun w => (topTopics succ).contains w))).length :
          ℚ) /
      (succ.length : ℚ)

/-- One performance-pattern row. -/
structure PerfPattern where
  pattern : PatternTag
  video_count : ℕ
  avg_views : ℚ
  deriving DecidableEq

/-- The videos of the analyzed batch whose matched tags include the given
tag; a video belongs to every group its tags place it in. -/
def perfGroup (succ : List (VideoRecord × VideoAnalysis)) (t : PatternTag) :
    List (VideoRecord × VideoAnalysis) :=
  succ.filter (fun p => decide (t ∈ p.2.title_analysis.patterns))

/-- Arithmetic mean view count of a group. -/
def avgViews (l : List (VideoRecord × VideoAnalysis)) : ℚ :=
  if l.isEmpty then 0 else ((l.map (fun p => (p.1.view_count : ℚ))).sum) / (l.length : ℚ)

/-- Modelled from the spec: one entry per pattern that appears in at least
one video, grouping videos by each matched tag with the group mean view
count. -/
def performancePatterns (succ : List (VideoRecord × VideoAnalysis)) : List PerfPattern :=
  (distinctTags succ).map (fun t =>
    { pattern := t, video_count := (perfGroup succ t).length, avg_views := avgViews (perfGroup succ t) })

/-- Mean word count across the analyzed titles. -/
def averageTitleLength (succ : List (VideoRecord × VideoAnalysis)) : ℚ :=
  if succ.isEmpty then 0
  else ((succ.map (fun p => ((normWords p.1.title).length : ℚ))).sum) / (succ.length : ℚ)

/-- Cross-video statistics for one analyzed batch. -/
structure PatternAggregate where
  common_patterns : List (PatternTag × ℕ)
  main_topics : List (String × ℕ)
  performance_patterns : List PerfPattern
  average_title_length : ℚ
  content_consistency : ℚ
  videos_analyzed : ℕ
  deriving DecidableEq

/-- Modelled from the spec: the Pattern Aggregator fails with
InsufficientDataError when the batch is empty or every video failed
analysis, and otherwise reduces the successfully analyzed subset. -/
def patternAggregator (batch : List VideoRecord) : Except AnalysisError PatternAggregate :=
  let succ := successes batch
  if succ.isEmpty then Except.error AnalysisError.insufficientData
  else
    Except.ok
      { common_patterns := commonPatterns succ,
        main_topics := mainTopics succ,
        performance_patterns := performancePatterns succ,
        average_title_length := averageTitleLength succ,
        content_consistency := contentConsistency succ,
        videos_analyzed := succ.length }

/-- Result shape of one analysis request: when no video analyzed
successfully the aggregate fields are absent, a distinct limited-analysis
shape rather than zero-valued statistics. -/
structure AnalysisResult where
  per_video : List (VideoRecord × VideoAnalysis)
  videos_analyzed : ℕ
  aggregate : Option PatternAggregate
  deriving DecidableEq

/-- Modelled from the spec: a whole analysis request over a batch. -/
def analyzeBatchRequest (batch : List VideoRecord) : AnalysisResult :=
  { per_video := successes batch,
    videos_analyzed := (successes batch).length,
    aggregate := (patternAggregator batch).toOption }

/-! ## Frontend rendering branches (from `ChannelDashboard`/`PatternAnalysis`) -/

/-- The outcomes of the metrics section of `ChannelDashboard.renderOverview`:
the full metric cards, the limited-analysis card, or nothing at all. -/
inductive OverviewShape where
  | fullMetrics
  | limitedAnalysis
  | noMetricsSection
  deriving DecidableEq

/-- Embedding of the `renderOverview` branch
`metrics && metrics.videos_analyzed > 0 ? (...) : channelData && (...)`:
full metric cards render only when metrics are present with
`videos_analyzed > 0`; otherwise the limited-analysis card renders only
when `channelData` is truthy, and the search-results-only path renders
neither shape. -/
def overviewShape (channelDataPresent : Bool) (metricsVideosAnalyzed : Option ℕ) :
    OverviewShape :=
  match metricsVideosAnalyzed with
  | some va =>
    if va > 0 then OverviewShape.fullMetrics
    else if channelDataPresent then OverviewShape.limitedAnalysis
    else OverviewShape.noMetricsSection
  | none =>
    if channelDataPresent then OverviewShape.limitedAnalysis
    else OverviewShape.noMetricsSection

/-- Embedding of the `PatternAnalysis` truthiness guard
`patterns.videos_analyzed && (...)`: the videos-analyzed card renders iff
the count is nonzero. -/
def showsVideosAnalyzedCard (va : ℕ) : Bool := va != 0

/-! ## Range lemmas for the score functions -/

theorem clampScore_nonneg (q : ℚ) : 0 ≤ clampScore q := le_max_left 0 _

theorem clampScore_le_100 (q : ℚ) : clampScore q ≤ 100 :=
  max_le (by norm_num) (min_le_left _ _)

theorem round_range_of_le {q : ℚ} {B : ℕ} (h0 : 0 ≤ q) (h1 : q ≤ (B : ℚ)) :
    0 ≤ round q ∧ round q ≤ (B : ℤ) := by
  rw [round_eq]
  constructor
  · exact Int.floor_nonneg.mpr (by linarith)
  · have h2 : (q + 1 / 2 : ℚ) < ((B : ℤ) + 1 : ℤ) := by push_cast; linarith
    have h3 := Int.floor_lt.mpr h2
    omega

theorem patternScore_range (tags : List PatternTag) :
    0 ≤ patternScore tags ∧ patternScore tags ≤ 100 := by
  unfold patternScore
  exact ⟨le_min (by norm_num) (by positivity), min_le_left _ _⟩

theorem lengthScore_range (wc : ℕ) : 0 ≤ lengthScore wc ∧ lengthScore wc ≤ 100 := by
  unfold lengthScore
  split_ifs with h1 h2
  · norm_num
  · have hc : (wc : ℚ) < 6 := by exact_mod_cast h2
    exact ⟨le_max_left 0 _, max_le (by norm_num) (by linarith)⟩
  · have h4 : 12 < wc := by omega
    have hc : (12 : ℚ) < (wc : ℚ) := by exact_mod_cast h4
    exact ⟨le_max_left 0 _, max_le (by norm_num) (by linarith)⟩

theorem powerWordScore_range (ws : List String) :
    0 ≤ powerWordScore ws ∧ powerWordScore ws ≤ 100 := by
  unfold powerWordScore
  split_ifs with h
  · norm_num
  · exact ⟨le_min (by norm_num) (by positivity), min_le_left _ _⟩

theorem structureScore_range (title : String) :
    0 ≤ structureScore title ∧ structureScore title ≤ 100 := by
  unfold structureScore
  refine ⟨le_min (by norm_num) ?_, min_le_left _ _⟩
  split_ifs <;> norm_num

theorem effectivenessScore_range (title : String) :
    0 ≤ effectivenessScore title ∧ effectivenessScore title ≤ 100 := by
  unfold effectivenessScore
  have h := round_range_of_le (clampScore_nonneg (effectivenessRaw title))
    (by exact_mod_cast clampScore_le_100 (effectivenessRaw title) : clampScore (effectivenessRaw title) ≤ ((100 : ℕ) : ℚ))
  constructor
  · exact_mod_cast h.1
  · exact_mod_cast h.2

theorem hookRaw_range (title : String) : 0 ≤ hookRaw title ∧ hookRaw title ≤ 100 := by
  unfold hookRaw
  have hmin0 : (0 : ℚ) ≤ min 40 (40 * ((emotionsTriggered title).length : ℚ) / 3) :=
    le_min (by norm_num) (by positivity)
  have hmin40 : min 40 (40 * ((emotionsTriggered title).length : ℚ) / 3) ≤ 40 :=
    min_le_left _ _
  split_ifs <;> constructor <;> linarith

theorem hookScore_two_decimals (title : String) :
    ∃ n : ℕ, n ≤ 10000 ∧ hookScore title = (n : ℚ) / 100 := by
  have hr := hookRaw_range title
  have h := round_range_of_le (q := 100 * hookRaw title) (B := 10000)
    (by linarith [hr.1]) (by push_cast; linarith [hr.2])
  refine ⟨(round (100 * hookRaw title)).toNat, ?_, ?_⟩
  · omega
  · unfold hookScore
    have hcast : (((round (100 * hookRaw title)).toNat : ℤ) : ℚ)
        = ((round (100 * hookRaw title) : ℤ) : ℚ) := by
      exact_mod_cast congrArg (fun z : ℤ => (z : ℚ)) (Int.toNat_of_nonneg h.1)
    rw [← hcast]
    push_cast
    ring

theorem seoScore_range (description : Option String) (title : String) :
    0 ≤ seoScore description title ∧ seoScore description title ≤ 100 := by
  unfold seoScore
  match description with
  | none => norm_num
  | some d => exact ⟨clampScore_nonneg _, clampScore_le_100 _⟩

theorem engagementScore_range (t s : ℚ) (sentiment hist : Option ℚ) :
    0 ≤ engagementScore t s sentiment hist ∧ engagementScore t s sentiment hist ≤ 100 := by
  unfold engagementScore
  match hist with
  | none => exact ⟨clampScore_nonneg _, clampScore_le_100 _⟩
  | some h => exact ⟨clampScore_nonneg _, clampScore_le_100 _⟩

theorem contentConsistency_range (succ : List (VideoRecord × VideoAnalysis)) :
    0 ≤ contentConsistency succ ∧ contentConsistency succ ≤ 100 := by
  unfold contentConsistency
  split_ifs with h
  · norm_num
  · have hlen : 0 < succ.length := by
      cases succ with
      | nil => simp [List.isEmpty] at h
      | cons a l => simp
    have hle := List.length_filter_le
      (fun p => (tokensOf p.1).any (fun w => (topTopics succ).contains w)) succ
    have hlenq : (0 : ℚ) < (succ.length : ℚ) := by exact_mod_cast hlen
    have hleq : ((succ.filter
        (fun p => (tokensOf p.1).any (fun w => (topTopics succ).contains w))).length : ℚ)
        ≤ (succ.length : ℚ) := by exact_mod_cast hle
    constructor
    · positivity
    · rw [div_le_iff₀ hlenq]
      linarith

/-- C1: for every analyzed title and batch, every score field produced by
the engine lies in the closed range [0, 100]: effectiveness_score and
hook_effectiveness_score for all titles, engagement_score, SEO score and
content_consistency for all batches; and hook_effectiveness_score always
carries exactly 2 decimal digits (it is an exact multiple of 1/100). -/
theorem score_fields_within_ranges :
    (∀ title : String, 0 ≤ effectivenessScore title ∧ effectivenessScore title ≤ 100) ∧
    (∀ title : String, ∃ n : ℕ, n ≤ 10000 ∧ hookScore title = (n : ℚ) / 100) ∧
    (∀ description : Option String, ∀ title : String,
      0 ≤ seoScore description title ∧ seoScore description title ≤ 100) ∧
    (∀ t s : ℚ, ∀ sentiment hist : Option ℚ,
      0 ≤ engagementScore t s sentiment hist ∧ engagementScore t s sentiment hist ≤ 100) ∧
    (∀ succ : List (VideoRecord × VideoAnalysis),
      0 ≤ contentConsistency succ ∧ contentConsistency succ ≤ 100) :=
  ⟨effectivenessScore_range, hookScore_two_decimals, seoScore_range,
   engagementScore_range, contentConsistency_range⟩

/-! ## Empty titles and batch exclusion -/

theorem length_filterMap_eq {α β : Type} (f : α → Option β) (p : α → Bool)
    (h : ∀ a, (f a).isSome = p a) (l : List α) :
    (l.filterMap f).length = (l.filter p).length := by
  induction l with
  | nil => rfl
  | cons a l ih =>
    cases hfa : f a with
    | none =>
      have hpa : p a = false := by rw [← h a, hfa]; rfl
      simp [List.filterMap_cons, List.filter_cons, hfa, hpa, ih]
    | some b =>
      have hpa : p a = true := by rw [← h a, hfa]; rfl
      simp [List.filterMap_cons, List.filter_cons, hfa, hpa, ih]

theorem analyzeInBatch_isSome (avg : ℚ) (v : VideoRecord) :
    (analyzeInBatch avg v).isSome = !(normWords v.title).isEmpty := by
  unfold analyzeInBatch analyzeVideo
  cases h : (normWords v.title).isEmpty <;> simp [h]

/-- C2: for every title that is empty or whitespace-only after
normalization, the Title Effectiveness Scorer fails with EmptyTitleError
(and conversely the error arises only then, so it never returns a score on
such a title); in a batch, failed videos are excluded and videos_analyzed
counts exactly the videos whose normalized title is non-empty. -/
theorem empty_title_error_and_exclusion :
    (∀ title : String,
      titleScorer title = Except.error AnalysisError.emptyTitle ↔ normWords title = []) ∧
    (∀ batch : List VideoRecord,
      (analyzeBatchRequest batch).videos_analyzed
        = (batch.filter (fun v => !(normWords v.title).isEmpty)).length) := by
  constructor
  · intro title
    unfold titleScorer
    cases h : normWords title with
    | nil => simp [h]
    | cons a l => simp [h]
  · intro batch
    show (successes batch).length = _
    unfold successes
    exact length_filterMap_eq _ _ (analyzeInBatch_isSome (batchAvgViews batch)) batch

/-! ## Aggregator failure on empty input -/

/-- C3: for every batch that is empty or in which every video failed
analysis, the Pattern Aggregator fails with InsufficientDataError and never
returns a zero-filled PatternAggregate. -/
theorem insufficient_data_on_empty_or_failed :
    patternAggregator [] = Except.error AnalysisError.insufficientData ∧
    (∀ batch : List VideoRecord, successes batch = [] →
      patternAggregator batch = Except.error AnalysisError.insufficientData) := by
  constructor
  · rfl
  · intro batch h
    unfold patternAggregator
    simp [h]

/-- A record whose title is whitespace-only, so its analysis fails. -/
def emptyTitleVideo : VideoRecord :=
  { video_id := "v0", title := "   ", description := none, view_count := 500,
    like_count := none, comment_count := none, duration := none,
    channel := "c0", published := none, sentiment := none }

/-- Witness for C3 out of a non-empty batch in which every video failed. -/
theorem insufficient_data_on_empty_or_failed_witness :
    successes [emptyTitleVideo] = [] ∧
    patternAggregator [emptyTitleVideo] = Except.error AnalysisError.insufficientData :=
  ⟨rfl, insufficient_data_on_empty_or_failed.2 [emptyTitleVideo] rfl⟩

/-- C4: running the Detector, Scorer, Hook Analyzer and Predictor twice on
the same record and input state yields identical results; each per-video
stage is embedded as a pure function of its inputs, so the two runs
coincide definitionally. -/
theorem per_video_analysis_deterministic :
    ∀ (hist : Option ℚ) (v : VideoRecord),
      patternDetector v.title = patternDetector v.title ∧
      titleScorer v.title = titleScorer v.title ∧
      hookAnalyzer v.title = hookAnalyzer v.title ∧
      engagementScore (effectivenessScore v.title) (seoScore v.description v.title) v.sentiment
          hist
        = engagementScore (effectivenessScore v.title) (seoScore v.description v.title) v.sentiment
            hist ∧
      analyzeVideo hist v = analyzeVideo hist v :=
  fun _ _ => ⟨rfl, rfl, rfl, rfl, rfl⟩

/-- C7: whenever an analysis request ends with videos_analyzed equal to 0
the aggregate fields are absent (and only then); on the channel-analysis
path (channelData present) the frontend renders the distinct
limited-analysis shape exactly in that case, the full metric cards render
only for a positive videos_analyzed whatever the channelData guard (never
a zero-valued metrics shape), and the videos-analyzed card is suppressed
exactly at 0. -/
theorem limited_analysis_distinct_shape :
    (∀ batch : List VideoRecord,
      (analyzeBatchRequest batch).videos_analyzed = 0 ↔
        (analyzeBatchRequest batch).aggregate = none) ∧
    (∀ va : ℕ, overviewShape true (some va) = OverviewShape.limitedAnalysis ↔ va = 0) ∧
    overviewShape true none = OverviewShape.limitedAnalysis ∧
    (∀ (channelDataPresent : Bool) (metrics : Option ℕ),
      overviewShape channelDataPresent metrics = OverviewShape.fullMetrics ↔
        ∃ n : ℕ, metrics = some n ∧ 0 < n) ∧
    (∀ va : ℕ, showsVideosAnalyzedCard va = false ↔ va = 0) := by
  refine ⟨?_, ?_, rfl, ?_, ?_⟩
  · intro batch
    show (successes batch).length = 0 ↔ (patternAggregator batch).toOption = none
    unfold patternAggregator
    cases h : successes batch with
    | nil => simp [h, Except.toOption]
    | cons a l => simp [h, Except.toOption]
  · intro va
    cases va with
    | zero => simp [overviewShape]
    | succ n => simp [overviewShape]
  · intro channelDataPresent metrics
    cases metrics with
    | none => cases channelDataPresent <;> simp [overviewShape]
    | some n =>
      cases n with
      | zero => cases channelDataPresent <;> simp [overviewShape]
      | succ m => simp [overviewShape]
  · intro va
    cases va with
    | zero => simp [showsVideosAnalyzedCard]
    | succ n => simp [showsVideosAnalyzedCard]

/-- C8: with no batch context the Engagement Predictor omits the
historical-normalization term and redistributes its weight 0.2
proportionally over the remaining terms (each remaining weight is divided
by 1 - 0.2), and the resulting engagement_score still lies in [0, 100]. -/
theorem single_video_weight_redistribution :
    ∀ (t s : ℚ) (sentiment : Option ℚ),
      engagementScore t s sentiment none
        = clampScore
            (((40 / 100) / (1 - 20 / 100)) * t + ((20 / 100) / (1 - 20 / 100)) * s +
              ((20 / 100) / (1 - 20 / 100)) * sentiment.getD 50) ∧
      0 ≤ engagementScore t s sentiment none ∧ engagementScore t s sentiment none ≤ 100 := by
  intro t s sentiment
  refine ⟨?_, (engagementScore_range t s sentiment none).1,
    (engagementScore_range t s sentiment none).2⟩
  unfold engagementScore
  ring_nf

/-! ## First-match deduplication lemmas -/

theorem dedupByKey_nil {α κ : Type} [DecidableEq κ] (key : α → κ) :
    dedupByKey key ([] : List α) = [] := by
  rw [dedupByKey]

theorem dedupByKey_cons {α κ : Type} [DecidableEq κ] (key : α → κ) (x : α) (xs : List α) :
    dedupByKey key (x :: xs)
      = x :: dedupByKey key (xs.filter (fun b => decide (key b ≠ key x))) := by
  rw [dedupByKey]

theorem dedupByKey_induction {α κ : Type} [DecidableEq κ] (key : α → κ) (P : List α → Prop)
    (h0 : P []) (h1 : ∀ x xs, P (xs.filter (fun b => decide (key b ≠ key x))) → P (x :: xs)) :
    ∀ l : List α, P l := by
  have haux : ∀ n (l : List α), l.length ≤ n → P l := by
    intro n
    induction n with
    | zero =>
      intro l hl
      rw [List.length_eq_zero.mp (Nat.le_zero.mp hl)]
      exact h0
    | succ n ih =>
      intro l hl
      cases l with
      | nil => exact h0
      | cons x xs =>
        refine h1 x xs (ih _ ?_)
        have hf := List.length_filter_le (fun b => decide (key b ≠ key x)) xs
        simp only [List.length_cons] at hl
        omega
  exact fun l => haux l.length l le_rfl

theorem dedupByKey_sublist {α κ : Type} [DecidableEq κ] (key : α → κ) :
    ∀ l : List α, List.Sublist (dedupByKey key l) l := by
  refine dedupByKey_induction key _ ?_ ?_
  · rw [dedupByKey_nil]
  · intro x xs ih
    rw [dedupByKey_cons]
    exact List.Sublist.cons₂ x (ih.trans (List.filter_sublist xs))

theorem dedupByKey_keys_nodup {α κ : Type} [DecidableEq κ] (key : α → κ) :
    ∀ l : List α, ((dedupByKey key l).map key).Nodup := by
  refine dedupByKey_induction key _ ?_ ?_
  · rw [dedupByKey_nil]; exact List.nodup_nil
  · intro x xs ih
    rw [dedupByKey_cons]
    simp only [List.map_cons, List.nodup_cons]
    refine ⟨?_, ih⟩
    intro hmem
    rcases List.mem_map.mp hmem with ⟨b, hb, hkb⟩
    have hbf := (dedupByKey_sublist key _).subset hb
    have h2 := (List.mem_filter.mp hbf).2
    simp only [decide_eq_true_eq] at h2
    exact h2 hkb

theorem find?_filter_key_ne {α κ : Type} [DecidableEq κ] (key : α → κ) (c d : κ) (hcd : c ≠ d)
    (l : List α) :
    (l.filter (fun b => decide (key b ≠ d))).find? (fun b => decide (key b = c))
      = l.find? (fun b => decide (key b = c)) := by
  induction l with
  | nil => rfl
  | cons y ys ih =>
    by_cases hy : key y = d
    · have hkeep : decide (key y ≠ d) = false := by simp [hy]
      have hyc : decide (key y = c) = false := by
        simp only [decide_eq_false_iff_not]
        intro h
        exact hcd (h.symm.trans hy)
      rw [List.filter_cons, if_neg (by rw [hkeep]; exact Bool.false_ne_true)]
      simp only [List.find?_cons, hyc]
      exact ih
    · have hkeep : decide (key y ≠ d) = true := by simp [hy]
      rw [List.filter_cons, if_pos hkeep]
      simp only [List.find?_cons]
      cases hyc : decide (key y = c) with
      | true => rfl
      | false => exact ih

theorem mem_dedupByKey_iff_find {α κ : Type} [DecidableEq κ] (key : α → κ) :
    ∀ (l : List α) (a : α),
      a ∈ dedupByKey key l ↔ l.find? (fun b => decide (key b = key a)) = some a := by
  refine dedupByKey_induction key (fun l => ∀ a,
    a ∈ dedupByKey key l ↔ l.find? (fun b => decide (key b = key a)) = some a) ?_ ?_
  · intro a
    rw [dedupByKey_nil]
    simp
  · intro x xs ih a
    rw [dedupByKey_cons]
    by_cases hax : key a = key x
    · have hpx : decide (key x = key a) = true := by simp [hax]
      simp only [List.find?_cons, hpx]
      constructor
      · intro hmem
        rcases List.mem_cons.mp hmem with rfl | hmem2
        · rfl
        · exfalso
          have hbf := (dedupByKey_sublist key _).subset hmem2
          have h2 := (List.mem_filter.mp hbf).2
          simp only [decide_eq_true_eq] at h2
          exact h2 hax
      · intro hf
        rw [Option.some_inj.mp hf]
        exact List.mem_cons_self _ _
    · have hpx : decide (key x = key a) = false := by
        simp only [decide_eq_false_iff_not]
        exact fun h => hax h.symm
      simp only [List.find?_cons, hpx]
      rw [← find?_filter_key_ne key (key a) (key x) hax xs]
      constructor
      · intro hmem
        rcases List.mem_cons.mp hmem with rfl | hmem2
        · exact absurd rfl hax
        · exact (ih a).mp hmem2
      · intro hf
        exact List.mem_cons_of_mem _ ((ih a).mpr hf)

/-- C6: for every title, emotions_triggered contains exactly one entry per
distinct emotion category with at least one lexicon hit in the hook; each
entry is the first (leftmost) hit for its category, and the list is ordered
by first occurrence position in the hook (it is a sublist of the hits in
hook order). -/
theorem emotions_triggered_first_match_per_category :
    ∀ title : String,
      ((hookAnalyzer title).emotions_triggered.map Prod.fst).Nodup ∧
      List.Sublist (hookAnalyzer title).emotions_triggered (emotionHits title) ∧
      (∀ e : EmotionCategory × String,
        e ∈ (hookAnalyzer title).emotions_triggered ↔
          (emotionHits title).find? (fun p => decide (p.1 = e.1)) = some e) ∧
      (∀ c : EmotionCategory,
        (∃ w : String, (c, w) ∈ (hookAnalyzer title).emotions_triggered) ↔
          ∃ p ∈ emotionHits title, p.1 = c) := by
  intro title
  have hdef : (hookAnalyzer title).emotions_triggered
      = dedupByKey Prod.fst (emotionHits title) := rfl
  refine ⟨?_, ?_, ?_, ?_⟩
  · rw [hdef]
    exact dedupByKey_keys_nodup Prod.fst (emotionHits title)
  · rw [hdef]
    exact dedupByKey_sublist Prod.fst (emotionHits title)
  · intro e
    rw [hdef]
    exact mem_dedupByKey_iff_find Prod.fst (emotionHits title) e
  · intro c
    constructor
    · rintro ⟨w, hw⟩
      rw [hdef] at hw
      exact ⟨(c, w), (dedupByKey_sublist Prod.fst (emotionHits title)).subset hw, rfl⟩
    · rintro ⟨p, hp, hpc⟩
      have hsome : ((emotionHits title).find? (fun b => decide (b.1 = c))).isSome := by
        rw [List.find?_isSome]
        exact ⟨p, hp, by simp [hpc]⟩
      rcases Option.isSome_iff_exists.mp hsome with ⟨q, hq⟩
      have hqc : q.1 = c := by
        have hps := List.find?_some hq
        simpa using hps
      have hq2 : (c, q.2) = q := Prod.ext hqc.symm rfl
      refine ⟨q.2, ?_⟩
      rw [hdef, mem_dedupByKey_iff_find]
      show List.find? (fun b => decide (b.1 = c)) (emotionHits title) = some (c, q.2)
      rw [hq2]
      exact hq

/-! ## Scenario C: a batch of three Question-tagged videos -/

theorem filterMap_analyzeInBatch_all_ok (avg : ℚ) :
    ∀ l : List VideoRecord, (∀ v ∈ l, (normWords v.title).isEmpty = false) →
      l.filterMap (analyzeInBatch avg)
        = l.map (fun v => (v, analyzeVideoTotal (some (histTerm v avg)) v)) := by
  intro l
  induction l with
  | nil => intro _; rfl
  | cons v vs ih =>
    intro h
    have hv := h v (List.mem_cons_self v vs)
    have hsome : analyzeInBatch avg v
        = some (v, analyzeVideoTotal (some (histTerm v avg)) v) := by
      unfold analyzeInBatch analyzeVideo
      rw [hv]
      rfl
    rw [List.filterMap_cons, hsome, List.map_cons,
      ih (fun w hw => h w (List.mem_cons_of_mem v hw))]

theorem successes_of_all_ok (batch : List VideoRecord)
    (h : ∀ v ∈ batch, (normWords v.title).isEmpty = false) :
    successes batch
      = batch.map
          (fun v => (v, analyzeVideoTotal (some (histTerm v (batchAvgViews batch))) v)) := by
  unfold successes
  exact filterMap_analyzeInBatch_all_ok (batchAvgViews batch) batch h

/-- First record of Scenario C. -/
def questionVideo1 : VideoRecord :=
  { video_id := "q1", title := "Why is the sky blue", description := none, view_count := 1000,
    like_count := none, comment_count := none, duration := none,
    channel := "curiosity lab", published := none, sentiment := none }

/-- Second record of Scenario C. -/
def questionVideo2 : VideoRecord :=
  { video_id := "q2", title := "Why do cats purr", description := none, view_count := 2000,
    like_count := none, comment_count := none, duration := none,
    channel := "curiosity lab", published := none, sentiment := none }

/-- Third record of Scenario C. -/
def questionVideo3 : VideoRecord :=
  { video_id := "q3", title := "Why we sleep at night", description := none, view_count := 3000,
    like_count := none, comment_count := none, duration := none,
    channel := "curiosity lab", published := none, sentiment := none }

/-- The Scenario C batch: three videos, all matching only the Question tag,
with view counts 1000, 2000 and 3000. -/
def questionBatch : List VideoRecord := [questionVideo1, questionVideo2, questionVideo3]

/-- C5: on the Scenario C batch the performance_patterns list is exactly
one entry with pattern Question, video_count 3 and avg_views 2000; in
general each entry counts the videos matching its tag with the arithmetic
mean of their view counts, and a video belongs to every group its tags
place it in. -/
theorem question_batch_performance_patterns :
    performancePatterns (successes questionBatch)
      = [{ pattern := PatternTag.question, video_count := 3, avg_views := 2000 }] ∧
    (∀ succ : List (VideoRecord × VideoAnalysis), ∀ e : PerfPattern,
      e ∈ performancePatterns succ →
        e.video_count = (perfGroup succ e.pattern).length ∧
        e.avg_views = avgViews (perfGroup succ e.pattern)) ∧
    (∀ (succ : List (VideoRecord × VideoAnalysis)) (p : VideoRecord × VideoAnalysis)
        (t : PatternTag), p ∈ succ → t ∈ p.2.title_analysis.patterns → p ∈ perfGroup succ t) := by
  refine ⟨?_, ?_, ?_⟩
  · have hok : ∀ v ∈ questionBatch, (normWords v.title).isEmpty = false := by decide
    rw [successes_of_all_ok questionBatch hok]
    have hd1 : patternDetector "Why is the sky blue" = [PatternTag.question] := by decide
    have hd2 : patternDetector "Why do cats purr" = [PatternTag.question] := by decide
    have hd3 : patternDetector "Why we sleep at night" = [PatternTag.question] := by decide
    have hdq : dedupByKey id [PatternTag.question, PatternTag.question, PatternTag.question]
        = [PatternTag.question] := by
      rw [dedupByKey_cons]
      simp [dedupByKey_nil]
    simp only [questionBatch, questionVideo1, questionVideo2, questionVideo3, List.map_cons,
      List.map_nil, performancePatterns, distinctTags, allTags, List.flatMap_cons,
      List.flatMap_nil, analyzeVideoTotal, hd1, hd2, hd3, List.append_nil, hdq, perfGroup,
      List.filter_cons, List.filter_nil, avgViews, List.isEmpty_cons, Bool.false_eq_true,
      if_false, List.length_cons, List.length_nil, List.sum_cons, List.sum_nil,
      PerfPattern.mk.injEq, decide_eq_true_eq, List.mem_cons, List.mem_singleton,
      List.not_mem_nil, or_false, eq_self_iff_true, if_true, List.singleton_append,
      List.cons_append, List.nil_append]
    norm_num
  · intro succ e he
    rcases List.mem_map.mp he with ⟨t, _, rfl⟩
    exact ⟨rfl, rfl⟩
  · intro succ p t hp ht
    exact List.mem_filter.mpr ⟨hp, by simp [ht]⟩

/-- Witness for C5 at the Scenario C batch: the single entry is in the
performance patterns, its count is the Question group size, and a concrete
Question-tagged video belongs to the Question group. -/
theorem question_batch_performance_patterns_witness :
    (({ pattern := PatternTag.question, video_count := 3, avg_views := 2000 } : PerfPattern)
        ∈ performancePatterns (successes questionBatch)) ∧
    3 = (perfGroup (successes questionBatch) PatternTag.question).length ∧
    (questionVideo1, analyzeVideoTotal none questionVideo1)
        ∈ perfGroup [(questionVideo1, analyzeVideoTotal none questionVideo1)]
            PatternTag.question := by
  have hmem : ({ pattern := PatternTag.question, video_count := 3, avg_views := 2000 } :
      PerfPattern) ∈ performancePatterns (successes questionBatch) := by
    rw [question_batch_performance_patterns.1]
    exact List.mem_singleton.mpr rfl
  refine ⟨hmem, ?_, ?_⟩
  · exact (question_batch_performance_patterns.2.1 _ _ hmem).1
  · exact question_batch_performance_patterns.2.2 _ _ PatternTag.question
      (List.mem_singleton.mpr rfl) (by decide)

/-! ## Frontend formatter properties -/

/-- C9: formatNumber returns "0" for undefined input and for 0; at and
above one million it renders millions to one decimal with suffix "M"; from
one thousand up to one million it renders thousands with suffix "K";
otherwise it returns the decimal string of the number. -/
theorem formatNumber_branches :
    (formatNumber none = "0" ∧ formatNumber (some 0) = "0") ∧
    (∀ n : ℤ, 1000000 ≤ n → formatNumber (some n) = jsToFixed1 n 1000000 ++ "M") ∧
    (∀ n : ℤ, 1000 ≤ n → n < 1000000 → formatNumber (some n) = jsToFixed1 n 1000 ++ "K") ∧
    (∀ n : ℤ, n ≠ 0 → n < 1000 → formatNumber (some n) = toString n) := by
  refine ⟨⟨rfl, rfl⟩, ?_, ?_, ?_⟩
  · intro n hn
    simp only [formatNumber]
    rw [if_neg (by omega), if_pos hn]
  · intro n h1 h2
    simp only [formatNumber]
    rw [if_neg (by omega), if_neg (by omega), if_pos h1]
  · intro n h0 h1
    simp only [formatNumber]
    rw [if_neg h0, if_neg (by omega), if_neg (by omega)]

/-- Witness for C9 at 2500000, 1500 and 999, with the million branch
evaluated to its rendered string. -/
theorem formatNumber_branches_witness :
    ((1000000 : ℤ) ≤ 2500000 ∧
      formatNumber (some 2500000) = jsToFixed1 2500000 1000000 ++ "M") ∧
    ((1000 : ℤ) ≤ 1500 ∧ (1500 : ℤ) < 1000000 ∧
      formatNumber (some 1500) = jsToFixed1 1500 1000 ++ "K") ∧
    ((999 : ℤ) ≠ 0 ∧ (999 : ℤ) < 1000 ∧ formatNumber (some 999) = toString (999 : ℤ)) ∧
    formatNumber (some 2500000) = "2.5M" := by
  have hred : jsToFixed1 2500000 1000000 = "2.5" := by
    simp only [jsToFixed1]
    norm_num
    decide
  refine ⟨⟨by norm_num, formatNumber_branches.2.1 2500000 (by norm_num)⟩,
    ⟨by norm_num, by norm_num, formatNumber_branches.2.2.1 1500 (by norm_num) (by norm_num)⟩,
    ⟨by norm_num, by norm_num, formatNumber_branches.2.2.2 999 (by norm_num) (by norm_num)⟩, ?_⟩
  rw [formatNumber_branches.2.1 2500000 (by norm_num), hred]
  decide

theorem pad2_length_two : ∀ m : ℕ, m < 60 → (pad2 m).length = 2 := by decide

theorem toString_nat_length_pos : ∀ m : ℕ, m < 60 → 1 ≤ (toString m).length := by decide

theorem formatDuration_hours_eq (s : ℕ) (hs : 3600 ≤ s) :
    formatDuration (some s)
      = toString (s / 3600) ++ ":" ++ pad2 (s % 3600 / 60) ++ ":" ++ pad2 (s % 60) := by
  simp only [formatDuration]
  rw [if_neg (by omega), if_pos (Nat.div_pos hs (by norm_num))]

theorem formatDuration_minutes_eq (s : ℕ) (h1 : 1 ≤ s) (h2 : s < 3600) :
    formatDuration (some s) = toString (s / 60) ++ ":" ++ pad2 (s % 60) := by
  simp only [formatDuration]
  rw [if_neg (by omega), if_neg (by omega), Nat.mod_eq_of_lt h2]

/-- C10: formatDuration returns "N/A" exactly for undefined or 0; at an
hour or more it renders h:mm:ss with minutes and seconds zero-padded to two
digits; below an hour it renders m:ss with seconds zero-padded. -/
theorem formatDuration_branches :
    (∀ sec : Option ℕ, formatDuration sec = "N/A" ↔ (sec = none ∨ sec = some 0)) ∧
    (∀ s : ℕ, 3600 ≤ s →
      formatDuration (some s)
          = toString (s / 3600) ++ ":" ++ pad2 (s % 3600 / 60) ++ ":" ++ pad2 (s % 60) ∧
        (pad2 (s % 3600 / 60)).length = 2 ∧ (pad2 (s % 60)).length = 2) ∧
    (∀ s : ℕ, 1 ≤ s → s < 3600 →
      formatDuration (some s) = toString (s / 60) ++ ":" ++ pad2 (s % 60) ∧
        (pad2 (s % 60)).length = 2) := by
  refine ⟨?_, ?_, ?_⟩
  · intro sec
    cases sec with
    | none => simp [formatDuration]
    | some s =>
      by_cases h0 : s = 0
      · subst h0
        simp [formatDuration]
      · have hne : formatDuration (some s) ≠ "N/A" := by
          intro heq
          have hlen := congrArg String.length heq
          by_cases hh : 3600 ≤ s
          · rw [formatDuration_hours_eq s hh] at hlen
            simp only [String.length_append] at hlen
            have hp1 := pad2_length_two (s % 3600 / 60) (by omega)
            have hp2 := pad2_length_two (s % 60) (by omega)
            rw [hp1, hp2] at hlen
            have hcolon : (":" : String).length = 1 := by decide
            rw [hcolon] at hlen
            have hna : ("N/A" : String).length = 3 := by decide
            rw [hna] at hlen
            omega
          · rw [formatDuration_minutes_eq s (by omega) (by omega)] at hlen
            simp only [String.length_append] at hlen
            have hp2 := pad2_length_two (s % 60) (by omega)
            have hts := toString_nat_length_pos (s / 60) (by omega)
            rw [hp2] at hlen
            have hcolon : (":" : String).length = 1 := by decide
            rw [hcolon] at hlen
            have hna : ("N/A" : String).length = 3 := by decide
            rw [hna] at hlen
            omega
        constructor
        · intro h
          exact absurd h hne
        · rintro (h | h)
          · exact Option.noConfusion h
          · exact absurd (Option.some_inj.mp h) h0
  · intro s hs
    exact ⟨formatDuration_hours_eq s hs, pad2_length_two _ (by omega),
      pad2_length_two _ (by omega)⟩
  · intro s h1 h2
    exact ⟨formatDuration_minutes_eq s h1 h2, pad2_length_two _ (by omega)⟩

/-- Witness for C10 at 3725 seconds (1:02:05) and 90 seconds (1:30). -/
theorem formatDuration_branches_witness :
    ((3600 : ℕ) ≤ 3725 ∧
      formatDuration (some 3725)
        = toString (3725 / 3600) ++ ":" ++ pad2 (3725 % 3600 / 60) ++ ":" ++ pad2 (3725 % 60)) ∧
    ((1 : ℕ) ≤ 90 ∧ (90 : ℕ) < 3600 ∧
      formatDuration (some 90) = toString (90 / 60) ++ ":" ++ pad2 (90 % 60)) ∧
    formatDuration (some 3725) = "1:02:05" ∧ formatDuration (some 90) = "1:30" := by
  refine ⟨⟨by norm_num, (formatDuration_branches.2.1 3725 (by norm_num)).1⟩,
    ⟨by norm_num, by norm_num, (formatDuration_branches.2.2 90 (by norm_num) (by norm_num)).1⟩,
    by decide, by decide⟩
